import Mathlib

/-!
Verification development for the pull-request-statistics client library.

The definitions below are a shallow embedding of the repository's Python
source.  Calendar dates are modelled by `PyDate` (mirroring `datetime.date`,
whose constructor rejects years outside 1..9999 and invalid month/day
combinations), fallible Python code is modelled in the `Except PyErr` monad,
and dictionary lookups that may be absent are modelled with `Option` fields.
-/

/-- Errors raised by the embedded Python code.  `valueError` models
`ValueError`, `malformed` models `MalformedResponseError`, `keyError` models
`KeyError` raised by a `d[k]` subscript on a missing key, `typeError` models
`TypeError`, and `serverExhausted` models the test harness running out of
stubbed responses. -/
inductive PyErr where
  | valueError (msg : String)
  | malformed (msg : String)
  | keyError (key : String)
  | typeError (msg : String)
  | serverExhausted
deriving Repr, DecidableEq

/-- Calendar date mirroring Python `datetime.date` field-for-field. -/
structure PyDate where
  year : Int
  month : Int
  day : Int
deriving Repr, DecidableEq

/-- Leap-year rule used by `calendar.monthrange` (proleptic Gregorian). -/
def isLeapYear (y : Int) : Bool :=
  y % 4 == 0 && (y % 100 != 0 || y % 400 == 0)

/-- Number of days in a month, as returned by `calendar.monthrange(year, month)[1]`. -/
def daysInMonth (y m : Int) : Int :=
  if m == 2 then (if isLeapYear y then 29 else 28)
  else if m == 4 || m == 6 || m == 9 || m == 11 then 30
  else 31

/-- Validity predicate of Python `datetime.date(y, m, d)`: the constructor
accepts exactly years 1..9999, months 1..12 and days 1..daysInMonth. -/
def validDate (y m d : Int) : Bool :=
  1 ≤ y && y ≤ 9999 && 1 ≤ m && m ≤ 12 && 1 ≤ d && d ≤ daysInMonth y m

/-- Embedding of the `datetime.date` constructor, which raises `ValueError`
on out-of-range arguments. -/
def mkDate (y m d : Int) : Except PyErr PyDate :=
  if validDate y m d then .ok ⟨y, m, d⟩
  else .error (.valueError "date value out of range")

/-- Validity of a `PyDate` value (every constructible Python date satisfies it). -/
def PyDate.valid (d : PyDate) : Bool := validDate d.year d.month d.day

/-- Strict ordering on dates: Python compares dates lexicographically by
(year, month, day). -/
def dateLt (a b : PyDate) : Bool :=
  a.year < b.year ||
    (a.year == b.year &&
      (a.month < b.month || (a.month == b.month && a.day < b.day)))

/-- Non-strict ordering on dates (lexicographic as in Python). -/
def dateLe (a b : PyDate) : Bool := !(dateLt b a)

/-- Inclusive date interval, mirroring the `DateRange` dataclass. -/
structure DateRange where
  start_date : PyDate
  end_date : PyDate
deriving Repr, DecidableEq

/-- Embedding of `DateRange.__post_init__`: construction raises `ValueError`
when the end date is strictly earlier than the start date. -/
def DateRange.make (s e : PyDate) : Except PyErr DateRange :=
  if dateLt e s then .error (.valueError "end_date must not be earlier than start_date.")
  else .ok ⟨s, e⟩

/-- Embedding of `DateRangeFactory._quarter_for_date`: the quarter holding a date. -/
def quarterForDate (d : PyDate) : Int := (d.month - 1) / 3 + 1

/-- Embedding of `DateRangeFactory._half_for_date`: the half-year holding a date. -/
def halfForDate (d : PyDate) : Int := if d.month ≤ 6 then 1 else 2

/-- Embedding of `DateRangeFactory._resolve_relative_year`. -/
def resolveRelativeYear (targetPeriod currentPeriod currentYear : Int) : Int :=
  if targetPeriod > currentPeriod then currentYear - 1 else currentYear

/-- Embedding of `DateRangeFactory._end_of_month`. -/
def endOfMonth (year m : Int) : Except PyErr PyDate :=
  mkDate year m (daysInMonth year m)

/-- Embedding of `DateRangeFactory._quarter_start_date`. -/
def quarterStartDate (q year : Int) : Except PyErr PyDate :=
  mkDate year ((q - 1) * 3 + 1) 1

/-- Embedding of `DateRangeFactory._quarter_end_date`. -/
def quarterEndDate (q year : Int) : Except PyErr PyDate := do
  let s ← quarterStartDate q year
  endOfMonth year (s.month + 2)

/-- Embedding of `DateRangeFactory._half_start_date` (month 1 for H1, else 7). -/
def halfStartDate (h year : Int) : Except PyErr PyDate :=
  mkDate year (if h == 1 then 1 else 7) 1

/-- Embedding of `DateRangeFactory._half_end_date`. -/
def halfEndDate (h year : Int) : Except PyErr PyDate := do
  let s ← halfStartDate h year
  endOfMonth year (s.month + 5)

/-- Embedding of `DateRangeFactory.for_quarter` with the effective `today`
passed explicitly (mirroring `_resolve_today`). -/
def forQuarter (q : Int) (today : PyDate) : Except PyErr DateRange := do
  let currentQuarter := quarterForDate today
  let targetYear := resolveRelativeYear q currentQuarter today.year
  let s ← quarterStartDate q targetYear
  let e ←
    if q == currentQuarter && targetYear == today.year then pure today
    else quarterEndDate q targetYear
  DateRange.make s e

/-- Embedding of `DateRangeFactory.for_month` with `today` passed explicitly. -/
def forMonth (m : Int) (today : PyDate) : Except PyErr DateRange := do
  let currentMonth := today.month
  let targetYear := resolveRelativeYear m currentMonth today.year
  let s ← mkDate targetYear m 1
  let e ←
    if targetYear == today.year && m == currentMonth then pure today
    else endOfMonth targetYear m
  DateRange.make s e

/-- Embedding of `DateRangeFactory.for_half` with `today` passed explicitly. -/
def forHalf (h : Int) (today : PyDate) : Except PyErr DateRange := do
  let currentHalf := halfForDate today
  let targetYear := resolveRelativeYear h currentHalf today.year
  let s ← halfStartDate h targetYear
  let e ←
    if h == currentHalf && targetYear == today.year then pure today
    else halfEndDate h targetYear
  DateRange.make s e

/-- Embedding of `DateRangeFactory._validate_year`. -/
def validateYear (year : Int) : Except PyErr Unit :=
  if year < 1 then .error (.valueError "year must be 1 or later.") else .ok ()

/-- Embedding of `DateRangeFactory._ensure_year_not_future`. -/
def ensureYearNotFuture (year : Int) (ref : PyDate) : Except PyErr Unit :=
  if year > ref.year then .error (.valueError "year must not be in the future.") else .ok ()

/-- Embedding of `DateRangeFactory._ensure_quarter_not_future`. -/
def ensureQuarterNotFuture (q year : Int) (ref : PyDate) : Except PyErr Unit :=
  if year == ref.year && q > quarterForDate ref then
    .error (.valueError "quarter must not be in the future.")
  else .ok ()

/-- Embedding of `DateRangeFactory._ensure_month_not_future`. -/
def ensureMonthNotFuture (m year : Int) (ref : PyDate) : Except PyErr Unit :=
  if year == ref.year && m > ref.month then
    .error (.valueError "month must not be in the future.")
  else .ok ()

/-- Embedding of `DateRangeFactory._ensure_half_not_future`. -/
def ensureHalfNotFuture (h year : Int) (ref : PyDate) : Except PyErr Unit :=
  if year == ref.year && h > halfForDate ref then
    .error (.valueError "half must not be in the future.")
  else .ok ()

/-- Embedding of `DateRangeFactory.for_quarter_in_year` with the reference
`today` passed explicitly (the source reads it from `_resolve_today(None)`). -/
def forQuarterInYear (q year : Int) (today : PyDate) : Except PyErr DateRange := do
  validateYear year
  ensureYearNotFuture year today
  ensureQuarterNotFuture q year today
  let s ← quarterStartDate q year
  let e ← quarterEndDate q year
  DateRange.make s e

/-- Embedding of `DateRangeFactory.for_month_in_year`. -/
def forMonthInYear (m year : Int) (today : PyDate) : Except PyErr DateRange := do
  validateYear year
  ensureYearNotFuture year today
  ensureMonthNotFuture m year today
  let s ← mkDate year m 1
  let e ← endOfMonth year m
  DateRange.make s e

/-- Embedding of `DateRangeFactory.for_half_in_year`. -/
def forHalfInYear (h year : Int) (today : PyDate) : Except PyErr DateRange := do
  validateYear year
  ensureYearNotFuture year today
  ensureHalfNotFuture h year today
  let s ← halfStartDate h year
  let e ← halfEndDate h year
  DateRange.make s e

/-- Embedding of `DateRangeFactory.for_year` with `today` passed explicitly. -/
def forYear (year : Int) (today : PyDate) : Except PyErr DateRange := do
  validateYear year
  ensureYearNotFuture year today
  let s ← mkDate year 1 1
  let e ← if year == today.year then pure today else mkDate year 12 31
  DateRange.make s e

/-- Timestamp mirroring Python `datetime.datetime` restricted to the fields
this code base uses (the service only builds and compares UTC instants). -/
structure PyDateTime where
  date : PyDate
  hour : Int
  minute : Int
  second : Int
deriving Repr, DecidableEq

/-- Embedding of `PullRequestStatisticsService._normalise_date_range`:
re-validate the bounds and convert them to UTC datetime bounds
(start of day and 23:59:59). -/
def normaliseDateRange (s e : PyDate) : Except PyErr (PyDateTime × PyDateTime) :=
  if dateLt e s then .error (.valueError "end_date must not be earlier than start_date.")
  else .ok (⟨s, 0, 0, 0⟩, ⟨e, 23, 59, 59⟩)

/-- Author object of a GraphQL node, modelling the Python dict restricted to
the two identity keys read anywhere in the service (`login` and `username`);
a `none` field models an absent key. -/
structure AuthorObj where
  login : Option String
  username : Option String
deriving Repr, DecidableEq

/-- Repository object of a GraphQL node. -/
structure RepoObj where
  nameWithOwner : Option String
deriving Repr, DecidableEq

/-- Review node carrying a creation timestamp and an author. -/
structure ReviewNode where
  createdAt : Option String
  author : Option AuthorObj
deriving Repr, DecidableEq

/-- Review edge whose `node` may be absent or null. -/
structure ReviewEdge where
  node : Option ReviewNode
deriving Repr, DecidableEq

/-- Reviews object: `edges` defaults to the empty list when the key is absent,
exactly as `(reviews or {}).get("edges", [])` treats it. -/
structure ReviewsObj where
  edges : List ReviewEdge
deriving Repr, DecidableEq

/-- Pull request record node as selected by the list and review queries; a
`none` field models an absent key. -/
structure PrNode where
  number : Option Int
  title : Option String
  url : Option String
  createdAt : Option String
  author : Option AuthorObj
  repository : Option RepoObj
  reviews : Option ReviewsObj
deriving Repr, DecidableEq

/-- Pagination block: `hasNextPage` is absent or a boolean, `endCursor` is
absent (`none`), present-but-null (`some none`) or a cursor string. -/
structure PageInfo where
  hasNextPage : Option Bool
  endCursor : Option (Option String)
deriving Repr, DecidableEq

/-- Search block of a GraphQL response. -/
structure SearchVal where
  issueCount : Option Int
  pageInfo : Option PageInfo
  nodes : Option (List (Option PrNode))
deriving Repr, DecidableEq

/-- Response envelope: the `search` key may be absent. -/
structure Response where
  search : Option SearchVal
deriving Repr, DecidableEq

/-- Numeric value of a decimal digit character. -/
def digitVal (c : Char) : Option Int :=
  if c.isDigit then some ((c.toNat : Int) - 48) else none

/-- Decimal value of a fixed list of digit characters. -/
def digitsToInt : List Char → Option Int
  | [] => some 0
  | c :: rest => do
    let d ← digitVal c
    let r ← digitsToInt rest
    some (d * (10 : Int) ^ rest.length + r)

/-- Core parser for a `YYYY-MM-DDTHH:MM:SS` character sequence, validating
the calendar and clock ranges exactly as `datetime.fromisoformat` does. -/
def parseIsoCore (cs : List Char) : Option PyDateTime :=
  match cs with
  | [a, b, c, d, '-', e, f, '-', g, h, 'T', i, j, ':', k, l, ':', m, n] => do
    let yr ← digitsToInt [a, b, c, d]
    let mo ← digitsToInt [e, f]
    let dy ← digitsToInt [g, h]
    let hr ← digitsToInt [i, j]
    let mi ← digitsToInt [k, l]
    let se ← digitsToInt [m, n]
    if validDate yr mo dy && 0 ≤ hr && hr ≤ 23 && 0 ≤ mi && mi ≤ 59 && 0 ≤ se && se ≤ 59 then
      some ⟨⟨yr, mo, dy⟩, hr, mi, se⟩
    else none
  | _ => none

/-- Model of `datetime.fromisoformat` restricted to the timestamp shapes this
service produces and consumes: `YYYY-MM-DDTHH:MM:SS` parses to an
offset-naive instant (flag `false`) and `YYYY-MM-DDTHH:MM:SS+00:00` to an
offset-aware UTC instant (flag `true`); everything else fails, modelling the
`ValueError` branch. -/
def parseIso (s : String) : Option (Bool × PyDateTime) :=
  let cs := s.data
  if cs.length = 19 then (parseIsoCore cs).map (fun dt => (false, dt))
  else if cs.length = 25 ∧ cs.drop 19 = ['+', '0', '0', ':', '0', '0'] then
    (parseIsoCore (cs.take 19)).map (fun dt => (true, dt))
  else none

/-- Character-level replacement of every `Z` by `+00:00`, equivalent to
`str.replace` for this single-character pattern. -/
def replaceZChars : List Char → List Char
  | [] => []
  | 'Z' :: rest => '+' :: '0' :: '0' :: ':' :: '0' :: '0' :: replaceZChars rest
  | c :: rest => c :: replaceZChars rest

/-- Embedding of the `created_at.replace("Z", "+00:00")` preprocessing. -/
def replaceZ (s : String) : String := ⟨replaceZChars s.data⟩

/-- Non-strict ordering of two UTC instants, as Python compares two
offset-aware datetimes with equal offsets. -/
def dtLe (a b : PyDateTime) : Bool :=
  dateLt a.date b.date ||
    (a.date == b.date &&
      (a.hour < b.hour ||
        (a.hour == b.hour &&
          (a.minute < b.minute ||
            (a.minute == b.minute && a.second ≤ b.second)))))

/-- Embedding of `review_node.get("author", {}).get("login")` and
`node.get("author", {}).get("login")`: an absent or null author behaves as
an empty dict. -/
def authorLoginOf (a : Option AuthorObj) : Option String := (a.getD ⟨none, none⟩).login

/-- Iteration of `_has_review_in_range` over review edges: a falsy node or a
wrong author or a falsy/unparsable timestamp is skipped; an offset-aware
in-window timestamp returns `True`; an offset-naive timestamp reaches the
`start_datetime <= review_time` comparison of a naive and an aware datetime,
which raises an uncaught `TypeError`. -/
def hasReviewGo (reviewer : String) (startDT endDT : PyDateTime) :
    List ReviewEdge → Except PyErr Bool
  | [] => .ok false
  | edge :: rest =>
    match edge.node with
    | none => hasReviewGo reviewer startDT endDT rest
    | some rn =>
      if authorLoginOf rn.author ≠ some reviewer then hasReviewGo reviewer startDT endDT rest
      else
        match rn.createdAt with
        | none => hasReviewGo reviewer startDT endDT rest
        | some raw =>
          if raw = "" then hasReviewGo reviewer startDT endDT rest
          else
            match parseIso (replaceZ raw) with
            | none => hasReviewGo reviewer startDT endDT rest
            | some (aware, dt) =>
              if aware then
                if dtLe startDT dt && dtLe dt endDT then .ok true
                else hasReviewGo reviewer startDT endDT rest
              else .error (.typeError "cannot compare offset-naive and offset-aware datetimes")

/-- Embedding of `PullRequestStatisticsService._has_review_in_range`. -/
def hasReviewInRange (reviews : Option ReviewsObj) (reviewer : String)
    (startDT endDT : PyDateTime) : Except PyErr Bool :=
  hasReviewGo reviewer startDT endDT (reviews.getD ⟨[]⟩).edges

/-- Parsed pull request summary mirroring the `PullRequestSummary` dataclass. -/
structure PullRequestSummary where
  number : Int
  title : String
  url : String
  repository : String
  author : String
  created_at : PyDateTime
deriving Repr, DecidableEq

/-- Embedding of `PullRequestSummary.from_graphql`, in the checking order of
the source: `createdAt` presence, timestamp parse, repository name, then the
`number`/`title`/`url` trio; the author string is read with
`author.get("username", "unknown")`. -/
def fromGraphql (node : PrNode) : Except PyErr PullRequestSummary :=
  match node.createdAt with
  | none => .error (.malformed "Pull request node missing createdAt")
  | some raw =>
    match parseIso (replaceZ raw) with
    | none => .error (.valueError "Could not parse creation time")
    | some (_, dt) =>
      let author := node.author.getD ⟨none, none⟩
      let repository := node.repository.getD ⟨none⟩
      match repository.nameWithOwner with
      | none => .error (.malformed "Pull request node missing repository.nameWithOwner")
      | some nameWithOwner =>
        match node.number, node.title, node.url with
        | some number, some title, some url =>
          .ok ⟨number, title, url, nameWithOwner, author.username.getD "unknown", dt⟩
        | _, _, _ => .error (.malformed "Pull request node missing required fields")

/-- Embedding of `PullRequestStatisticsService._extract_search`. -/
def extractSearch (r : Response) : Except PyErr SearchVal :=
  match r.search with
  | none => .error (.malformed "GitHub response missing search data")
  | some s => .ok s

/-- Embedding of `PullRequestStatisticsService._extract_issue_count`. -/
def extractIssueCount (s : SearchVal) : Except PyErr Int :=
  match s.issueCount with
  | none => .error (.malformed "GitHub response missing issueCount")
  | some n => .ok n

/-- Embedding of `PullRequestStatisticsService._extract_page_info`. -/
def extractPageInfo (s : SearchVal) : Except PyErr PageInfo :=
  match s.pageInfo with
  | none => .error (.malformed "GitHub response missing pageInfo")
  | some p => .ok p

/-- Embedding of the `d[k]` dictionary subscript: a missing key raises
`KeyError(k)`. -/
def keyLookup (k : String) : Option α → Except PyErr α
  | none => .error (.keyError k)
  | some v => .ok v

/-- Collection of the authored-enumeration loop body over the nodes of one
page: null placeholders are skipped, every other node is parsed. -/
def collectAuthored : List (Option PrNode) → Except PyErr (List PullRequestSummary)
  | [] => .ok []
  | none :: rest => collectAuthored rest
  | some n :: rest => do
    let s ← fromGraphql n
    let others ← collectAuthored rest
    .ok (s :: others)

/-- Embedding of the pagination loop of
`iter_pull_requests_by_author_in_date_range`: the supplied list holds the
successive responses the transport returns; the result records the `after`
cursor sent with each call together with the summaries yielded. -/
def iterAuthoredLoop : List Response → Option String →
    Except PyErr (List (Option String) × List PullRequestSummary)
  | [], _ => .error .serverExhausted
  | resp :: rest, cursor => do
    let search ← extractSearch resp
    let summaries ← collectAuthored (search.nodes.getD [])
    let pageInfo ← extractPageInfo search
    if pageInfo.hasNextPage.getD false then do
      let ec ← keyLookup "endCursor" pageInfo.endCursor
      let (calls, more) ← iterAuthoredLoop rest ec
      .ok (cursor :: calls, summaries ++ more)
    else .ok ([cursor], summaries)

/-- Per-page tally of `_count_reviewed_within_range`: null nodes are skipped,
self-authored nodes are skipped when requested, and a node counts when
`_has_review_in_range` holds. -/
def countNodesReviewed (reviewer : String) (excludeSelf : Bool)
    (startDT endDT : PyDateTime) : List (Option PrNode) → Except PyErr Int
  | [] => .ok 0
  | none :: rest => countNodesReviewed reviewer excludeSelf startDT endDT rest
  | some n :: rest =>
    if excludeSelf && (authorLoginOf n.author == some reviewer) then
      countNodesReviewed reviewer excludeSelf startDT endDT rest
    else do
      let matched ← hasReviewInRange n.reviews reviewer startDT endDT
      let tail ← countNodesReviewed reviewer excludeSelf startDT endDT rest
      .ok ((if matched then 1 else 0) + tail)

/-- Embedding of the pagination loop of `_count_reviewed_within_range`,
threading the list of remaining stubbed responses. -/
def countReviewedLoop (reviewer : String) (excludeSelf : Bool)
    (startDT endDT : PyDateTime) : List Response → Option String →
    Except PyErr (Int × List Response)
  | [], _ => .error .serverExhausted
  | resp :: rest, cursor => do
    let search ← extractSearch resp
    let c ← countNodesReviewed reviewer excludeSelf startDT endDT (search.nodes.getD [])
    let pageInfo ← extractPageInfo search
    if pageInfo.hasNextPage.getD false then do
      let ec ← keyLookup "endCursor" pageInfo.endCursor
      let (more, rest2) ← countReviewedLoop reviewer excludeSelf startDT endDT rest ec
      .ok (c + more, rest2)
    else .ok (c, rest)

/-- Embedding of `_count_reviewed_within_range`: normalise the date bounds,
then paginate with a null starting cursor. -/
def countReviewedWithinRange (reviewer : String) (dr : DateRange) (excludeSelf : Bool)
    (server : List Response) : Except PyErr (Int × List Response) := do
  let bounds ← normaliseDateRange dr.start_date dr.end_date
  countReviewedLoop reviewer excludeSelf bounds.1 bounds.2 server none

/-- Per-page yields of `iter_pull_requests_reviewed_by_user_in_date_range`:
null nodes are skipped, self-authored nodes are skipped when requested, and a
node is parsed and yielded when `_has_review_in_range` holds. -/
def collectReviewed (reviewer : String) (excludeSelf : Bool)
    (startDT endDT : PyDateTime) : List (Option PrNode) →
    Except PyErr (List PullRequestSummary)
  | [] => .ok []
  | none :: rest => collectReviewed reviewer excludeSelf startDT endDT rest
  | some n :: rest =>
    if excludeSelf && (authorLoginOf n.author == some reviewer) then
      collectReviewed reviewer excludeSelf startDT endDT rest
    else do
      let matched ← hasReviewInRange n.reviews reviewer startDT endDT
      if matched then do
        let s ← fromGraphql n
        let others ← collectReviewed reviewer excludeSelf startDT endDT rest
        .ok (s :: others)
      else collectReviewed reviewer excludeSelf startDT endDT rest

/-- Embedding of the pagination loop of
`iter_pull_requests_reviewed_by_user_in_date_range`, which reads `search`,
`pageInfo`, `hasNextPage` and `endCursor` with plain dictionary subscripts
rather than through the `_extract_*` helpers. -/
def iterReviewedLoop (reviewer : String) (excludeSelf : Bool)
    (startDT endDT : PyDateTime) : List Response → Option String →
    Except PyErr (List (Option String) × List PullRequestSummary)
  | [], _ => .error .serverExhausted
  | resp :: rest, cursor => do
    let search ← keyLookup "search" resp.search
    let summaries ← collectReviewed reviewer excludeSelf startDT endDT (search.nodes.getD [])
    let pageInfo ← keyLookup "pageInfo" search.pageInfo
    let hnp ← keyLookup "hasNextPage" pageInfo.hasNextPage
    if hnp then do
      let ec ← keyLookup "endCursor" pageInfo.endCursor
      let (calls, more) ← iterReviewedLoop reviewer excludeSelf startDT endDT rest ec
      .ok (cursor :: calls, summaries ++ more)
    else .ok ([cursor], summaries)

/-- Member statistics dataclass; its fields are `username`, `authored_count`
and `reviewed_count`. -/
structure MemberStatistics where
  username : String
  authored_count : Int
  reviewed_count : Int
deriving Repr, DecidableEq

/-- Embedding of the dataclass construction
`MemberStatistics(<kw>=member, authored_count=a, reviewed_count=r)` as
written in `count_member_statistics`: Python binds keyword arguments against
the dataclass fields, raising `TypeError` for an unexpected keyword, so the
identity keyword actually used at the call site is passed explicitly. -/
def memberStatisticsCall (kw : String) (member : String) (a r : Int) :
    Except PyErr MemberStatistics :=
  if kw = "username" then .ok ⟨member, a, r⟩
  else .error (.typeError ("unexpected keyword argument " ++ kw))

/-- Embedding of `dict.fromkeys(members)`: deduplication keeping the first
occurrence of each entry, in order. -/
def dedupFirstAux (seen : List String) : List String → List String
  | [] => []
  | x :: rest =>
    if x ∈ seen then dedupFirstAux seen rest
    else x :: dedupFirstAux (x :: seen) rest

/-- Deduplication preserving first-seen order. -/
def dedupFirst (members : List String) : List String := dedupFirstAux [] members

/-- Embedding of `_count_authored_within_range`: one `COUNT_QUERY` round
trip, validated through `_extract_search` and `_extract_issue_count`. -/
def countAuthoredWithinRange : List Response → Except PyErr (Int × List Response)
  | [] => .error .serverExhausted
  | resp :: rest => do
    let search ← extractSearch resp
    let c ← extractIssueCount search
    .ok (c, rest)

/-- Per-member loop body of `count_member_statistics`: one authored count,
one reviewed count, then the `MemberStatistics(login=member, ...)` call. -/
def goMembers (dr : DateRange) (excludeSelf : Bool) :
    List String → List Response → Except PyErr (List MemberStatistics × List Response)
  | [], server => .ok ([], server)
  | member :: rest, server => do
    let authored ← countAuthoredWithinRange server
    let reviewed ← countReviewedWithinRange member dr excludeSelf authored.2
    let ms ← memberStatisticsCall "login" member authored.1 reviewed.1
    let others ← goMembers dr excludeSelf rest reviewed.2
    .ok (ms :: others.1, others.2)

/-- Embedding of `count_member_statistics`: deduplicate the supplied
identities keeping first-seen order, discard blank entries, return
`(None, [])` on an empty remainder without touching the transport, and
otherwise resolve one date range and assemble per-member statistics in
order.  The date-range resolution outcome is passed as a value since the
period arguments only feed `_resolve_date_range`. -/
def countMemberStatistics (members : List String) (resolveRange : Except PyErr DateRange)
    (excludeSelf : Bool) (server : List Response) :
    Except PyErr ((Option DateRange × List MemberStatistics) × List Response) :=
  let uniqueMembers := (dedupFirst members).filter (fun s => s ≠ "")
  if uniqueMembers = [] then .ok ((none, []), server)
  else do
    let dr ← resolveRange
    let stats ← goMembers dr excludeSelf uniqueMembers server
    .ok ((some dr, stats.1), stats.2)

/-- Specification-side criterion for one review edge, following the words of
the spec: the sub-review is authored by the target reviewer and carries a
timestamp that parses to an offset-aware UTC instant lying within the window
bounds inclusively. -/
def specEdgeMatches (reviewer : String) (startDT endDT : PyDateTime) (e : ReviewEdge) : Bool :=
  match e.node with
  | none => false
  | some rn =>
    (authorLoginOf rn.author == some reviewer) &&
      (match rn.createdAt with
       | none => false
       | some raw =>
         match parseIso (replaceZ raw) with
         | some (true, dt) => dtLe startDT dt && dtLe dt endDT
         | _ => false)

/-- A review edge authored by the target reviewer whose timestamp parses to
an offset-naive instant: the one situation in which the source raises an
uncaught comparison `TypeError` instead of skipping or matching. -/
def specEdgeNaive (reviewer : String) (e : ReviewEdge) : Bool :=
  match e.node with
  | none => false
  | some rn =>
    (authorLoginOf rn.author == some reviewer) &&
      (match rn.createdAt with
       | none => false
       | some raw =>
         match parseIso (replaceZ raw) with
         | some (false, _) => true
         | _ => false)

/-- Specification-side criterion for one record: at least one of its review
edges matches. -/
def specNodeMatches (reviewer : String) (startDT endDT : PyDateTime) (n : PrNode) : Bool :=
  ((n.reviews.getD ⟨[]⟩).edges).any (specEdgeMatches reviewer startDT endDT)

/-- Naive-free review data for one record node. -/
def nodeNoNaive (reviewer : String) (n : PrNode) : Prop :=
  ∀ e ∈ (n.reviews.getD ⟨[]⟩).edges, specEdgeNaive reviewer e = false

/-- Harness constructor for one stubbed response page. -/
def mkPage (nodes : List (Option PrNode)) (hnp : Option Bool) (ec : Option (Option String)) :
    Response :=
  ⟨some ⟨none, some ⟨hnp, ec⟩, some nodes⟩⟩

/-- Harness: the N pages served for a pagination run — every page but the
last signals `hasNextPage` with a cursor, the last page signals completion. -/
def pagesOf (front : List (List (Option PrNode) × Option String))
    (lastNodes : List (Option PrNode)) : List Response :=
  front.map (fun p => mkPage p.1 (some true) (some p.2)) ++
    [mkPage lastNodes (some false) (some none)]

/-- Harness: all record entries of the served pages, in page order. -/
def allNodesOf (front : List (List (Option PrNode) × Option String))
    (lastNodes : List (Option PrNode)) : List (Option PrNode) :=
  (front.map Prod.fst).flatten ++ lastNodes

/-- Classifier for the malformed-result error family. -/
def isMalformedErr {α : Type} : Except PyErr α → Bool
  | .error (.malformed _) => true
  | _ => false

example : forQuarter 3 ⟨2024, 2, 5⟩ = .ok ⟨⟨2023, 7, 1⟩, ⟨2023, 9, 30⟩⟩ := rfl

example : forMonth 5 ⟨2024, 5, 10⟩ = .ok ⟨⟨2024, 5, 1⟩, ⟨2024, 5, 10⟩⟩ := rfl

example : forYear 2024 ⟨2024, 8, 15⟩ = .ok ⟨⟨2024, 1, 1⟩, ⟨2024, 8, 15⟩⟩ := rfl

example : forYear 2023 ⟨2024, 8, 15⟩ = .ok ⟨⟨2023, 1, 1⟩, ⟨2023, 12, 31⟩⟩ := rfl

example : forYear 2025 ⟨2024, 8, 15⟩ = .error (.valueError "year must not be in the future.") := rfl

example : forQuarter 3 ⟨1, 5, 1⟩ = .error (.valueError "date value out of range") := rfl

example : forHalf 2 ⟨2024, 3, 1⟩ = .ok ⟨⟨2023, 7, 1⟩, ⟨2023, 12, 31⟩⟩ := rfl

/-- Bounds satisfied by every constructible Python date. -/
theorem PyDate.valid_bounds (d : PyDate) (h : d.valid = true) :
    1 ≤ d.year ∧ d.year ≤ 9999 ∧ 1 ≤ d.month ∧ d.month ≤ 12 ∧
      1 ≤ d.day ∧ d.day ≤ daysInMonth d.year d.month := by
  simp [PyDate.valid, validDate] at h
  tauto

/-- Every month length lies between 28 and 31 days. -/
theorem daysInMonth_bounds (y m : Int) : 28 ≤ daysInMonth y m ∧ daysInMonth y m ≤ 31 := by
  unfold daysInMonth
  split
  · split <;> omega
  · split <;> omega

/-- C10: every successfully constructed `DateRange` satisfies `end >= start`;
constructing one with `end < start` fails with a validation error; and the
conversion to UTC datetime bounds at query-building time re-applies the same
bound check, failing the same way. -/
theorem c10_date_range_invariant :
    (∀ s e r, DateRange.make s e = .ok r → r = ⟨s, e⟩ ∧ dateLe r.start_date r.end_date = true)
    ∧ (∀ s e, dateLt e s = true →
        DateRange.make s e = .error (.valueError "end_date must not be earlier than start_date."))
    ∧ (∀ s e, dateLt e s = true →
        normaliseDateRange s e = .error (.valueError "end_date must not be earlier than start_date."))
    ∧ (∀ s e, dateLt e s = false →
        normaliseDateRange s e = .ok (⟨s, 0, 0, 0⟩, ⟨e, 23, 59, 59⟩)) := by
  refine ⟨?_, ?_, ?_, ?_⟩
  · intro s e r h
    unfold DateRange.make at h
    split at h
    · exact absurd h (by simp)
    · next hc =>
      cases h
      refine ⟨rfl, ?_⟩
      simp only [dateLe]
      simp only [Bool.not_eq_true] at hc ⊢
      simpa using hc
  · intro s e h
    simp [DateRange.make, h]
  · intro s e h
    simp [normaliseDateRange, h]
  · intro s e h
    simp [normaliseDateRange, h]

/-- Witness for `c10_date_range_invariant` at concrete dates. -/
theorem c10_witness :
    DateRange.make ⟨2024, 1, 2⟩ ⟨2024, 1, 1⟩ =
      .error (.valueError "end_date must not be earlier than start_date.") ∧
    normaliseDateRange ⟨2024, 1, 1⟩ ⟨2024, 3, 4⟩ =
      .ok (⟨⟨2024, 1, 1⟩, 0, 0, 0⟩, ⟨⟨2024, 3, 4⟩, 23, 59, 59⟩) :=
  ⟨c10_date_range_invariant.2.1 _ _ (by decide),
   c10_date_range_invariant.2.2.2 _ _ (by decide)⟩

/-- C9: `for_year` returns `[Jan 1, Dec 31]` of the requested year, except
that the end is `today` when the year is the current year; it fails with a
validation error exactly when the year is before 1 or strictly after the
current year. -/
theorem c9_for_year (year : Int) (today : PyDate) (hv : today.valid = true) :
    (year < 1 → forYear year today = .error (.valueError "year must be 1 or later."))
    ∧ (today.year < year → forYear year today = .error (.valueError "year must not be in the future."))
    ∧ (1 ≤ year → year < today.year → forYear year today = .ok ⟨⟨year, 1, 1⟩, ⟨year, 12, 31⟩⟩)
    ∧ (year = today.year → forYear year today = .ok ⟨⟨year, 1, 1⟩, today⟩) := by
  obtain ⟨hy1, hy2, hm1, hm2, hd1, hd2⟩ := PyDate.valid_bounds today hv
  refine ⟨?_, ?_, ?_, ?_⟩
  · intro h
    simp only [forYear, validateYear, if_pos h, bind, Except.bind]
  · intro h
    simp only [forYear, validateYear, if_neg (by omega : ¬ year < 1), bind, Except.bind,
      ensureYearNotFuture, if_pos (by omega : year > today.year)]
  · intro h1 h2
    have hs : validDate year 1 1 = true := by simp [validDate, daysInMonth]; omega
    have he : validDate year 12 31 = true := by simp [validDate, daysInMonth]; omega
    simp only [forYear, validateYear, if_neg (by omega : ¬ year < 1), bind, Except.bind,
      ensureYearNotFuture, if_neg (by omega : ¬ year > today.year), mkDate, if_pos hs,
      if_pos he, if_neg (by simp <;> omega : ¬ (year == today.year) = true),
      DateRange.make, if_neg (by simp [dateLt] : ¬ dateLt ⟨year, 12, 31⟩ ⟨year, 1, 1⟩ = true)]
  · intro h
    have hs : validDate year 1 1 = true := by simp [validDate, daysInMonth]; omega
    simp only [forYear, validateYear, if_neg (by omega : ¬ year < 1), bind, Except.bind,
      ensureYearNotFuture, if_neg (by omega : ¬ year > today.year), mkDate, if_pos hs,
      if_pos (by simp [h] : (year == today.year) = true), pure, Except.pure,
      DateRange.make, if_neg (by simp [dateLt] <;> omega : ¬ dateLt today ⟨year, 1, 1⟩ = true)]

/-- Witness for `c9_for_year` at the scenarios given in the specification. -/
theorem c9_witness :
    forYear 2023 ⟨2024, 8, 15⟩ = .ok ⟨⟨2023, 1, 1⟩, ⟨2023, 12, 31⟩⟩ ∧
    forYear 2024 ⟨2024, 8, 15⟩ = .ok ⟨⟨2024, 1, 1⟩, ⟨2024, 8, 15⟩⟩ ∧
    forYear 2025 ⟨2024, 8, 15⟩ = .error (.valueError "year must not be in the future.") :=
  ⟨(c9_for_year 2023 ⟨2024, 8, 15⟩ (by decide)).2.2.1 (by decide) (by decide),
   (c9_for_year 2024 ⟨2024, 8, 15⟩ (by decide)).2.2.2 rfl,
   (c9_for_year 2025 ⟨2024, 8, 15⟩ (by decide)).2.1 (by decide)⟩

/-- Successful evaluation of `_quarter_start_date` under in-range arguments. -/
theorem quarterStartDate_ok (q year : Int) (h1 : 1 ≤ q) (h2 : q ≤ 4)
    (hy1 : 1 ≤ year) (hy2 : year ≤ 9999) :
    quarterStartDate q year = .ok ⟨year, (q - 1) * 3 + 1, 1⟩ := by
  have hb := daysInMonth_bounds year ((q - 1) * 3 + 1)
  have hvd : validDate year ((q - 1) * 3 + 1) 1 = true := by
    simp [validDate]; omega
  simp [quarterStartDate, mkDate, hvd]

/-- Successful evaluation of `_end_of_month` under in-range arguments. -/
theorem endOfMonth_ok (year m : Int) (h1 : 1 ≤ m) (h2 : m ≤ 12)
    (hy1 : 1 ≤ year) (hy2 : year ≤ 9999) :
    endOfMonth year m = .ok ⟨year, m, daysInMonth year m⟩ := by
  have hb := daysInMonth_bounds year m
  have hvd : validDate year m (daysInMonth year m) = true := by
    simp [validDate]; omega
  simp [endOfMonth, mkDate, hvd]

/-- Successful evaluation of `_quarter_end_date` under in-range arguments. -/
theorem quarterEndDate_ok (q year : Int) (h1 : 1 ≤ q) (h2 : q ≤ 4)
    (hy1 : 1 ≤ year) (hy2 : year ≤ 9999) :
    quarterEndDate q year = .ok ⟨year, q * 3, daysInMonth year (q * 3)⟩ := by
  have harith : (q - 1) * 3 + 1 + 2 = q * 3 := by ring
  simp only [quarterEndDate, quarterStartDate_ok q year h1 h2 hy1 hy2, bind, Except.bind,
    harith, endOfMonth_ok year (q * 3) (by omega) (by omega) hy1 hy2]

/-- Successful evaluation of `_half_start_date` under in-range arguments. -/
theorem halfStartDate_ok (h year : Int) (h1 : 1 ≤ h) (h2 : h ≤ 2)
    (hy1 : 1 ≤ year) (hy2 : year ≤ 9999) :
    halfStartDate h year = .ok ⟨year, if h == 1 then 1 else 7, 1⟩ := by
  have hb31 := daysInMonth_bounds year 1
  have hb37 := daysInMonth_bounds year 7
  rcases (by omega : h = 1 ∨ h = 2) with hc | hc <;>
    subst hc <;> simp [halfStartDate, mkDate, validDate, daysInMonth] <;> omega

/-- Successful evaluation of `_half_end_date` under in-range arguments. -/
theorem halfEndDate_ok (h year : Int) (h1 : 1 ≤ h) (h2 : h ≤ 2)
    (hy1 : 1 ≤ year) (hy2 : year ≤ 9999) :
    halfEndDate h year = .ok ⟨year, h * 6, daysInMonth year (h * 6)⟩ := by
  rcases (by omega : h = 1 ∨ h = 2) with hc | hc <;> subst hc
  · simp only [halfEndDate, halfStartDate_ok 1 year (by omega) (by omega) hy1 hy2,
      bind, Except.bind]
    norm_num
    exact endOfMonth_ok year 6 (by omega) (by omega) hy1 hy2
  · simp only [halfEndDate, halfStartDate_ok 2 year (by omega) (by omega) hy1 hy2,
      bind, Except.bind]
    norm_num
    exact endOfMonth_ok year 12 (by omega) (by omega) hy1 hy2

/-- Bounds on the quarter computed for a valid date. -/
theorem quarterForDate_bounds (d : PyDate) (hv : d.valid = true) :
    1 ≤ quarterForDate d ∧ quarterForDate d ≤ 4 ∧
      (quarterForDate d - 1) * 3 + 1 ≤ d.month ∧ d.month ≤ quarterForDate d * 3 := by
  obtain ⟨hy1, hy2, hm1, hm2, hd1, hd2⟩ := PyDate.valid_bounds d hv
  unfold quarterForDate
  omega

/-- Case analysis of `for_quarter`: current quarter, earlier same-year
quarter, rolled-back prior-year quarter, and the unrepresentable roll-back
from year 1. -/
theorem forQuarter_cases (q : Int) (today : PyDate) (hq1 : 1 ≤ q) (hq2 : q ≤ 4)
    (hv : today.valid = true) :
    (q = quarterForDate today →
      forQuarter q today = .ok ⟨⟨today.year, (q - 1) * 3 + 1, 1⟩, today⟩)
    ∧ (q < quarterForDate today →
      forQuarter q today =
        .ok ⟨⟨today.year, (q - 1) * 3 + 1, 1⟩, ⟨today.year, q * 3, daysInMonth today.year (q * 3)⟩⟩)
    ∧ (quarterForDate today < q → 2 ≤ today.year →
      forQuarter q today =
        .ok ⟨⟨today.year - 1, (q - 1) * 3 + 1, 1⟩,
             ⟨today.year - 1, q * 3, daysInMonth (today.year - 1) (q * 3)⟩⟩)
    ∧ (quarterForDate today < q → today.year = 1 →
      forQuarter q today = .error (.valueError "date value out of range")) := by
  obtain ⟨hy1, hy2, hm1, hm2, hd1, hd2⟩ := PyDate.valid_bounds today hv
  obtain ⟨hqf1, hqf2, hqm1, hqm2⟩ := quarterForDate_bounds today hv
  refine ⟨?_, ?_, ?_, ?_⟩
  · intro h
    simp only [forQuarter, resolveRelativeYear, if_neg (by omega : ¬ q > quarterForDate today),
      quarterStartDate_ok q today.year hq1 hq2 hy1 hy2, bind, Except.bind,
      if_pos (by simp [h] : (q == quarterForDate today && today.year == today.year) = true),
      pure, Except.pure, DateRange.make,
      if_neg (by simp [dateLt] <;> omega : ¬ dateLt today ⟨today.year, (q - 1) * 3 + 1, 1⟩ = true)]
  · intro h
    have hb := daysInMonth_bounds today.year (q * 3)
    simp only [forQuarter, resolveRelativeYear, if_neg (by omega : ¬ q > quarterForDate today),
      quarterStartDate_ok q today.year hq1 hq2 hy1 hy2, bind, Except.bind,
      if_neg (by simp <;> omega : ¬ (q == quarterForDate today && today.year == today.year) = true),
      quarterEndDate_ok q today.year hq1 hq2 hy1 hy2, DateRange.make,
      if_neg (by simp [dateLt] <;> omega :
        ¬ dateLt ⟨today.year, q * 3, daysInMonth today.year (q * 3)⟩
            ⟨today.year, (q - 1) * 3 + 1, 1⟩ = true)]
  · intro h hy
    have hb := daysInMonth_bounds (today.year - 1) (q * 3)
    simp only [forQuarter, resolveRelativeYear, if_pos (by omega : q > quarterForDate today),
      quarterStartDate_ok q (today.year - 1) hq1 hq2 (by omega) (by omega), bind, Except.bind,
      if_neg (by simp <;> omega : ¬ (q == quarterForDate today && today.year - 1 == today.year) = true),
      quarterEndDate_ok q (today.year - 1) hq1 hq2 (by omega) (by omega), DateRange.make,
      if_neg (by simp [dateLt] <;> omega :
        ¬ dateLt ⟨today.year - 1, q * 3, daysInMonth (today.year - 1) (q * 3)⟩
            ⟨today.year - 1, (q - 1) * 3 + 1, 1⟩ = true)]
  · intro h hy
    have hvd : validDate (today.year - 1) ((q - 1) * 3 + 1) 1 = false := by
      simp [validDate]; omega
    simp only [forQuarter, resolveRelativeYear, if_pos (by omega : q > quarterForDate today),
      quarterStartDate, mkDate, hvd, Bool.false_eq_true, if_false, bind, Except.bind]

/-- Case analysis of `for_month`: current month, earlier same-year month,
rolled-back prior-year month, and the unrepresentable roll-back from year 1. -/
theorem forMonth_cases (m : Int) (today : PyDate) (hm1 : 1 ≤ m) (hm2 : m ≤ 12)
    (hv : today.valid = true) :
    (m = today.month → forMonth m today = .ok ⟨⟨today.year, m, 1⟩, today⟩)
    ∧ (m < today.month →
      forMonth m today = .ok ⟨⟨today.year, m, 1⟩, ⟨today.year, m, daysInMonth today.year m⟩⟩)
    ∧ (today.month < m → 2 ≤ today.year →
      forMonth m today =
        .ok ⟨⟨today.year - 1, m, 1⟩, ⟨today.year - 1, m, daysInMonth (today.year - 1) m⟩⟩)
    ∧ (today.month < m → today.year = 1 →
      forMonth m today = .error (.valueError "date value out of range")) := by
  obtain ⟨hy1, hy2, hmo1, hmo2, hd1, hd2⟩ := PyDate.valid_bounds today hv
  refine ⟨?_, ?_, ?_, ?_⟩
  · intro h
    have hb := daysInMonth_bounds today.year m
    have hvd : validDate today.year m 1 = true := by simp [validDate] <;> omega
    simp only [forMonth, resolveRelativeYear, if_neg (by omega : ¬ m > today.month),
      mkDate, hvd, if_true, bind, Except.bind,
      if_pos (by simp [h] : (today.year == today.year && m == today.month) = true),
      pure, Except.pure, DateRange.make,
      if_neg (by simp [dateLt] <;> omega : ¬ dateLt today ⟨today.year, m, 1⟩ = true)]
  · intro h
    have hb := daysInMonth_bounds today.year m
    have hvd : validDate today.year m 1 = true := by simp [validDate] <;> omega
    simp only [forMonth, resolveRelativeYear, if_neg (by omega : ¬ m > today.month),
      mkDate, hvd, if_true, bind, Except.bind,
      if_neg (by simp <;> omega : ¬ (today.year == today.year && m == today.month) = true),
      endOfMonth_ok today.year m hm1 hm2 hy1 hy2, DateRange.make,
      if_neg (by simp [dateLt] <;> omega :
        ¬ dateLt ⟨today.year, m, daysInMonth today.year m⟩ ⟨today.year, m, 1⟩ = true)]
  · intro h hy
    have hb := daysInMonth_bounds (today.year - 1) m
    have hvd : validDate (today.year - 1) m 1 = true := by simp [validDate] <;> omega
    simp only [forMonth, resolveRelativeYear, if_pos (by omega : m > today.month),
      mkDate, hvd, if_true, bind, Except.bind,
      if_neg (by simp <;> omega : ¬ (today.year - 1 == today.year && m == today.month) = true),
      endOfMonth_ok (today.year - 1) m hm1 hm2 (by omega) (by omega), DateRange.make,
      if_neg (by simp [dateLt] <;> omega :
        ¬ dateLt ⟨today.year - 1, m, daysInMonth (today.year - 1) m⟩ ⟨today.year - 1, m, 1⟩ = true)]
  · intro h hy
    have hvd : validDate (today.year - 1) m 1 = false := by simp [validDate] <;> omega
    simp only [forMonth, resolveRelativeYear, if_pos (by omega : m > today.month),
      mkDate, hvd, Bool.false_eq_true, if_false, bind, Except.bind]

/-- Bounds on the half-year computed for a valid date. -/
theorem halfForDate_bounds (d : PyDate) (hv : d.valid = true) :
    1 ≤ halfForDate d ∧ halfForDate d ≤ 2 ∧
      (halfForDate d - 1) * 6 + 1 ≤ d.month ∧ d.month ≤ halfForDate d * 6 := by
  obtain ⟨hy1, hy2, hm1, hm2, hd1, hd2⟩ := PyDate.valid_bounds d hv
  unfold halfForDate
  split <;> omega

/-- Case analysis of `for_half`: current half, earlier same-year half,
rolled-back prior-year half, and the unrepresentable roll-back from year 1. -/
theorem forHalf_cases (h : Int) (today : PyDate) (hh1 : 1 ≤ h) (hh2 : h ≤ 2)
    (hv : today.valid = true) :
    (h = halfForDate today →
      forHalf h today = .ok ⟨⟨today.year, (h - 1) * 6 + 1, 1⟩, today⟩)
    ∧ (h < halfForDate today →
      forHalf h today =
        .ok ⟨⟨today.year, (h - 1) * 6 + 1, 1⟩, ⟨today.year, h * 6, daysInMonth today.year (h * 6)⟩⟩)
    ∧ (halfForDate today < h → 2 ≤ today.year →
      forHalf h today =
        .ok ⟨⟨today.year - 1, (h - 1) * 6 + 1, 1⟩,
             ⟨today.year - 1, h * 6, daysInMonth (today.year - 1) (h * 6)⟩⟩)
    ∧ (halfForDate today < h → today.year = 1 →
      forHalf h today = .error (.valueError "date value out of range")) := by
  obtain ⟨hy1, hy2, hmo1, hmo2, hd1, hd2⟩ := PyDate.valid_bounds today hv
  obtain ⟨hhf1, hhf2, hhm1, hhm2⟩ := halfForDate_bounds today hv
  have hstart : (if h == 1 then (1 : Int) else 7) = (h - 1) * 6 + 1 := by
    rcases (by omega : h = 1 ∨ h = 2) with hc | hc <;> subst hc <;> norm_num
  refine ⟨?_, ?_, ?_, ?_⟩
  · intro heq
    simp only [forHalf, resolveRelativeYear, if_neg (by omega : ¬ h > halfForDate today),
      halfStartDate_ok h today.year hh1 hh2 hy1 hy2, hstart, bind, Except.bind,
      if_pos (by simp [heq] : (h == halfForDate today && today.year == today.year) = true),
      pure, Except.pure, DateRange.make,
      if_neg (by simp [dateLt] <;> omega :
        ¬ dateLt today ⟨today.year, (h - 1) * 6 + 1, 1⟩ = true)]
  · intro hlt
    have hb := daysInMonth_bounds today.year (h * 6)
    simp only [forHalf, resolveRelativeYear, if_neg (by omega : ¬ h > halfForDate today),
      halfStartDate_ok h today.year hh1 hh2 hy1 hy2, hstart, bind, Except.bind,
      if_neg (by simp <;> omega : ¬ (h == halfForDate today && today.year == today.year) = true),
      halfEndDate_ok h today.year hh1 hh2 hy1 hy2, DateRange.make,
      if_neg (by simp [dateLt] <;> omega :
        ¬ dateLt ⟨today.year, h * 6, daysInMonth today.year (h * 6)⟩
            ⟨today.year, (h - 1) * 6 + 1, 1⟩ = true)]
  · intro hlt hy
    have hb := daysInMonth_bounds (today.year - 1) (h * 6)
    simp only [forHalf, resolveRelativeYear, if_pos (by omega : h > halfForDate today),
      halfStartDate_ok h (today.year - 1) hh1 hh2 (by omega) (by omega), hstart, bind, Except.bind,
      if_neg (by simp <;> omega : ¬ (h == halfForDate today && today.year - 1 == today.year) = true),
      halfEndDate_ok h (today.year - 1) hh1 hh2 (by omega) (by omega), DateRange.make,
      if_neg (by simp [dateLt] <;> omega :
        ¬ dateLt ⟨today.year - 1, h * 6, daysInMonth (today.year - 1) (h * 6)⟩
            ⟨today.year - 1, (h - 1) * 6 + 1, 1⟩ = true)]
  · intro hlt hy
    have hvd : validDate (today.year - 1) (if h == 1 then 1 else 7) 1 = false := by
      rcases (by omega : h = 1 ∨ h = 2) with hc | hc <;> subst hc <;>
        simp [validDate] <;> omega
    simp only [forHalf, resolveRelativeYear, if_pos (by omega : h > halfForDate today),
      halfStartDate, mkDate, hvd, Bool.false_eq_true, if_false, bind, Except.bind]

/-- C1 (amended): for the relative resolvers, a requested ordinal that is
less than or equal to the current period's ordinal targets the current year,
and a strictly greater ordinal targets the previous year, the resulting range
fully spanning that prior-year period and never lying in the future —
provided the previous year is representable (today's year at least 2); when
today's year is 1 the roll-back fails with a value error, because year 0 is
not a constructible date. -/
theorem c1_relative_year_selection (q m h : Int) (today : PyDate)
    (hq1 : 1 ≤ q) (hq2 : q ≤ 4) (hm1 : 1 ≤ m) (hm2 : m ≤ 12) (hh1 : 1 ≤ h) (hh2 : h ≤ 2)
    (hv : today.valid = true) :
    (q ≤ quarterForDate today → ∃ r, forQuarter q today = .ok r ∧
      r.start_date.year = today.year ∧ r.end_date.year = today.year)
    ∧ (m ≤ today.month → ∃ r, forMonth m today = .ok r ∧
      r.start_date.year = today.year ∧ r.end_date.year = today.year)
    ∧ (h ≤ halfForDate today → ∃ r, forHalf h today = .ok r ∧
      r.start_date.year = today.year ∧ r.end_date.year = today.year)
    ∧ (quarterForDate today < q → 2 ≤ today.year →
      forQuarter q today =
        .ok ⟨⟨today.year - 1, (q - 1) * 3 + 1, 1⟩,
             ⟨today.year - 1, q * 3, daysInMonth (today.year - 1) (q * 3)⟩⟩ ∧
      dateLt ⟨today.year - 1, q * 3, daysInMonth (today.year - 1) (q * 3)⟩ today = true)
    ∧ (today.month < m → 2 ≤ today.year →
      forMonth m today =
        .ok ⟨⟨today.year - 1, m, 1⟩, ⟨today.year - 1, m, daysInMonth (today.year - 1) m⟩⟩ ∧
      dateLt ⟨today.year - 1, m, daysInMonth (today.year - 1) m⟩ today = true)
    ∧ (halfForDate today < h → 2 ≤ today.year →
      forHalf h today =
        .ok ⟨⟨today.year - 1, (h - 1) * 6 + 1, 1⟩,
             ⟨today.year - 1, h * 6, daysInMonth (today.year - 1) (h * 6)⟩⟩ ∧
      dateLt ⟨today.year - 1, h * 6, daysInMonth (today.year - 1) (h * 6)⟩ today = true)
    ∧ (quarterForDate today < q → today.year = 1 →
      forQuarter q today = .error (.valueError "date value out of range"))
    ∧ (today.month < m → today.year = 1 →
      forMonth m today = .error (.valueError "date value out of range"))
    ∧ (halfForDate today < h → today.year = 1 →
      forHalf h today = .error (.valueError "date value out of range")) := by
  obtain ⟨cq, lq, rq, eq1⟩ := forQuarter_cases q today hq1 hq2 hv
  obtain ⟨cm, lm, rm, em1⟩ := forMonth_cases m today hm1 hm2 hv
  obtain ⟨ch, lh, rh, eh1⟩ := forHalf_cases h today hh1 hh2 hv
  refine ⟨?_, ?_, ?_, ?_, ?_, ?_, eq1, em1, eh1⟩
  · intro hle
    rcases lt_or_eq_of_le hle with hlt | heq
    · exact ⟨_, lq hlt, rfl, rfl⟩
    · exact ⟨_, cq heq, rfl, rfl⟩
  · intro hle
    rcases lt_or_eq_of_le hle with hlt | heq
    · exact ⟨_, lm hlt, rfl, rfl⟩
    · exact ⟨_, cm heq, rfl, rfl⟩
  · intro hle
    rcases lt_or_eq_of_le hle with hlt | heq
    · exact ⟨_, lh hlt, rfl, rfl⟩
    · exact ⟨_, ch heq, rfl, rfl⟩
  · intro hgt hy
    exact ⟨rq hgt hy, by simp [dateLt] <;> omega⟩
  · intro hgt hy
    exact ⟨rm hgt hy, by simp [dateLt] <;> omega⟩
  · intro hgt hy
    exact ⟨rh hgt hy, by simp [dateLt] <;> omega⟩

/-- Counterexample to C1 as stated: requesting quarter 3 with today set to
0001-05-01 (current quarter 2, so the requested ordinal is strictly greater)
raises a value error instead of yielding a range spanning the prior-year
quarter, because the rolled-back year 0 is not a representable date. -/
theorem c1_counterexample :
    quarterForDate ⟨1, 5, 1⟩ < 3 ∧
    forQuarter 3 ⟨1, 5, 1⟩ = .error (.valueError "date value out of range") :=
  ⟨by decide, rfl⟩

/-- Witness for `c1_relative_year_selection` at concrete inputs. -/
theorem c1_witness :
    forQuarter 3 ⟨2024, 2, 5⟩ = .ok ⟨⟨2023, 7, 1⟩, ⟨2023, 9, 30⟩⟩ ∧
    dateLt ⟨2023, 9, 30⟩ ⟨2024, 2, 5⟩ = true := by
  have hinst := (c1_relative_year_selection 3 5 2 ⟨2024, 2, 5⟩ (by decide) (by decide)
    (by decide) (by decide) (by decide) (by decide) (by decide)).2.2.2.1
    (by decide) (by decide)
  exact ⟨hinst.1.trans rfl, hinst.2⟩

/-- C2 (amended): when the resolved target period is the period containing
today in the current year, the returned range ends exactly on today; an
earlier same-year period and a rolled-back prior-year period end on the
period's natural last calendar day (never truncated) — except that a
roll-back from today's year 1 fails with a value error instead of returning
a range, because year 0 is not a constructible date. -/
theorem c2_end_of_range_policy (q m h : Int) (today : PyDate)
    (hq1 : 1 ≤ q) (hq2 : q ≤ 4) (hm1 : 1 ≤ m) (hm2 : m ≤ 12) (hh1 : 1 ≤ h) (hh2 : h ≤ 2)
    (hv : today.valid = true) :
    (q = quarterForDate today → ∃ r, forQuarter q today = .ok r ∧ r.end_date = today)
    ∧ (m = today.month → ∃ r, forMonth m today = .ok r ∧ r.end_date = today)
    ∧ (h = halfForDate today → ∃ r, forHalf h today = .ok r ∧ r.end_date = today)
    ∧ (q < quarterForDate today → ∃ r, forQuarter q today = .ok r ∧
      r.end_date = ⟨today.year, q * 3, daysInMonth today.year (q * 3)⟩)
    ∧ (m < today.month → ∃ r, forMonth m today = .ok r ∧
      r.end_date = ⟨today.year, m, daysInMonth today.year m⟩)
    ∧ (h < halfForDate today → ∃ r, forHalf h today = .ok r ∧
      r.end_date = ⟨today.year, h * 6, daysInMonth today.year (h * 6)⟩)
    ∧ (quarterForDate today < q → 2 ≤ today.year → ∃ r, forQuarter q today = .ok r ∧
      r.end_date = ⟨today.year - 1, q * 3, daysInMonth (today.year - 1) (q * 3)⟩)
    ∧ (today.month < m → 2 ≤ today.year → ∃ r, forMonth m today = .ok r ∧
      r.end_date = ⟨today.year - 1, m, daysInMonth (today.year - 1) m⟩)
    ∧ (halfForDate today < h → 2 ≤ today.year → ∃ r, forHalf h today = .ok r ∧
      r.end_date = ⟨today.year - 1, h * 6, daysInMonth (today.year - 1) (h * 6)⟩)
    ∧ (quarterForDate today < q → today.year = 1 →
      forQuarter q today = .error (.valueError "date value out of range"))
    ∧ (today.month < m → today.year = 1 →
      forMonth m today = .error (.valueError "date value out of range"))
    ∧ (halfForDate today < h → today.year = 1 →
      forHalf h today = .error (.valueError "date value out of range")) := by
  obtain ⟨cq, lq, rq, eq1⟩ := forQuarter_cases q today hq1 hq2 hv
  obtain ⟨cm, lm, rm, em1⟩ := forMonth_cases m today hm1 hm2 hv
  obtain ⟨ch, lh, rh, eh1⟩ := forHalf_cases h today hh1 hh2 hv
  exact ⟨fun he => ⟨_, cq he, rfl⟩, fun he => ⟨_, cm he, rfl⟩, fun he => ⟨_, ch he, rfl⟩,
    fun hl => ⟨_, lq hl, rfl⟩, fun hl => ⟨_, lm hl, rfl⟩, fun hl => ⟨_, lh hl, rfl⟩,
    fun hg hy => ⟨_, rq hg hy, rfl⟩, fun hg hy => ⟨_, rm hg hy, rfl⟩,
    fun hg hy => ⟨_, rh hg hy, rfl⟩, eq1, em1, eh1⟩

/-- Counterexample to C2 as stated: with today set to 0001-05-01, resolving
month 12 (a rolled-back prior-year occurrence) raises a value error instead
of returning a range ending on the month's natural last calendar day. -/
theorem c2_counterexample :
    (⟨1, 5, 1⟩ : PyDate).month < 12 ∧
    forMonth 12 ⟨1, 5, 1⟩ = .error (.valueError "date value out of range") :=
  ⟨by decide, rfl⟩

/-- Witness for `c2_end_of_range_policy` at concrete inputs. -/
theorem c2_witness :
    (∃ r, forMonth 5 ⟨2024, 5, 10⟩ = .ok r ∧ r.end_date = ⟨2024, 5, 10⟩) ∧
    (∃ r, forHalf 2 ⟨2024, 3, 1⟩ = .ok r ∧ r.end_date = ⟨2023, 12, 31⟩) := by
  have h1 := (c2_end_of_range_policy 1 5 1 ⟨2024, 5, 10⟩ (by decide) (by decide) (by decide)
    (by decide) (by decide) (by decide) (by decide)).2.1 (by decide)
  have h2 := (c2_end_of_range_policy 1 5 2 ⟨2024, 3, 1⟩ (by decide) (by decide) (by decide)
    (by decide) (by decide) (by decide) (by decide)).2.2.2.2.2.2.2.2.1 (by decide) (by decide)
  refine ⟨h1, ?_⟩
  obtain ⟨r, hr, he⟩ := h2
  exact ⟨r, hr, he.trans rfl⟩

/-- C8: the year-scoped resolvers return the full first-to-last-day span of
the requested period in the requested year, and fail with a validation error
exactly when the year is before 1, strictly after the current year, or equal
to the current year with a requested ordinal strictly greater than the
current period's ordinal. -/
theorem c8_in_year_resolvers (q m h year : Int) (today : PyDate)
    (hq1 : 1 ≤ q) (hq2 : q ≤ 4) (hm1 : 1 ≤ m) (hm2 : m ≤ 12) (hh1 : 1 ≤ h) (hh2 : h ≤ 2)
    (hv : today.valid = true) :
    (year < 1 →
      forQuarterInYear q year today = .error (.valueError "year must be 1 or later.")
      ∧ forMonthInYear m year today = .error (.valueError "year must be 1 or later.")
      ∧ forHalfInYear h year today = .error (.valueError "year must be 1 or later."))
    ∧ (today.year < year →
      forQuarterInYear q year today = .error (.valueError "year must not be in the future.")
      ∧ forMonthInYear m year today = .error (.valueError "year must not be in the future.")
      ∧ forHalfInYear h year today = .error (.valueError "year must not be in the future."))
    ∧ (year = today.year →
      (quarterForDate today < q →
        forQuarterInYear q year today = .error (.valueError "quarter must not be in the future."))
      ∧ (today.month < m →
        forMonthInYear m year today = .error (.valueError "month must not be in the future."))
      ∧ (halfForDate today < h →
        forHalfInYear h year today = .error (.valueError "half must not be in the future.")))
    ∧ (1 ≤ year → year ≤ today.year →
      ((year = today.year → q ≤ quarterForDate today) →
        forQuarterInYear q year today =
          .ok ⟨⟨year, (q - 1) * 3 + 1, 1⟩, ⟨year, q * 3, daysInMonth year (q * 3)⟩⟩)
      ∧ ((year = today.year → m ≤ today.month) →
        forMonthInYear m year today = .ok ⟨⟨year, m, 1⟩, ⟨year, m, daysInMonth year m⟩⟩)
      ∧ ((year = today.year → h ≤ halfForDate today) →
        forHalfInYear h year today =
          .ok ⟨⟨year, (h - 1) * 6 + 1, 1⟩, ⟨year, h * 6, daysInMonth year (h * 6)⟩⟩)) := by
  obtain ⟨hy1, hy2, hmo1, hmo2, hd1, hd2⟩ := PyDate.valid_bounds today hv
  have hstart : (if h == 1 then (1 : Int) else 7) = (h - 1) * 6 + 1 := by
    rcases (by omega : h = 1 ∨ h = 2) with hc | hc <;> subst hc <;> norm_num
  refine ⟨?_, ?_, ?_, ?_⟩
  · intro hlt
    refine ⟨?_, ?_, ?_⟩ <;>
      simp only [forQuarterInYear, forMonthInYear, forHalfInYear, validateYear,
        if_pos hlt, bind, Except.bind]
  · intro hgt
    refine ⟨?_, ?_, ?_⟩ <;>
      simp only [forQuarterInYear, forMonthInYear, forHalfInYear, validateYear,
        if_neg (by omega : ¬ year < 1), ensureYearNotFuture,
        if_pos (by omega : year > today.year), bind, Except.bind]
  · intro heq
    refine ⟨?_, ?_, ?_⟩
    · intro hq
      simp only [forQuarterInYear, validateYear, if_neg (by omega : ¬ year < 1),
        ensureYearNotFuture, if_neg (by omega : ¬ year > today.year), bind, Except.bind,
        ensureQuarterNotFuture,
        if_pos (by simp <;> omega : (year == today.year && decide (q > quarterForDate today)) = true)]
    · intro hm
      simp only [forMonthInYear, validateYear, if_neg (by omega : ¬ year < 1),
        ensureYearNotFuture, if_neg (by omega : ¬ year > today.year), bind, Except.bind,
        ensureMonthNotFuture,
        if_pos (by simp <;> omega : (year == today.year && decide (m > today.month)) = true)]
    · intro hh
      simp only [forHalfInYear, validateYear, if_neg (by omega : ¬ year < 1),
        ensureYearNotFuture, if_neg (by omega : ¬ year > today.year), bind, Except.bind,
        ensureHalfNotFuture,
        if_pos (by simp <;> omega : (year == today.year && decide (h > halfForDate today)) = true)]
  · intro hge hle
    refine ⟨?_, ?_, ?_⟩
    · intro hcur
      have hb := daysInMonth_bounds year (q * 3)
      simp only [forQuarterInYear, validateYear, if_neg (by omega : ¬ year < 1),
        ensureYearNotFuture, if_neg (by omega : ¬ year > today.year), bind, Except.bind,
        ensureQuarterNotFuture,
        if_neg (by simp <;> intro hy <;> have := hcur hy <;> omega :
          ¬ (year == today.year && decide (q > quarterForDate today)) = true),
        quarterStartDate_ok q year hq1 hq2 (by omega) (by omega),
        quarterEndDate_ok q year hq1 hq2 (by omega) (by omega), DateRange.make,
        if_neg (by simp [dateLt] <;> omega :
          ¬ dateLt ⟨year, q * 3, daysInMonth year (q * 3)⟩ ⟨year, (q - 1) * 3 + 1, 1⟩ = true)]
    · intro hcur
      have hb := daysInMonth_bounds year m
      have hvd : validDate year m 1 = true := by simp [validDate] <;> omega
      simp only [forMonthInYear, validateYear, if_neg (by omega : ¬ year < 1),
        ensureYearNotFuture, if_neg (by omega : ¬ year > today.year), bind, Except.bind,
        ensureMonthNotFuture,
        if_neg (by simp <;> intro hy <;> have := hcur hy <;> omega :
          ¬ (year == today.year && decide (m > today.month)) = true),
        mkDate, hvd, if_true,
        endOfMonth_ok year m hm1 hm2 (by omega) (by omega), DateRange.make,
        if_neg (by simp [dateLt] <;> omega :
          ¬ dateLt ⟨year, m, daysInMonth year m⟩ ⟨year, m, 1⟩ = true)]
    · intro hcur
      have hb := daysInMonth_bounds year (h * 6)
      simp only [forHalfInYear, validateYear, if_neg (by omega : ¬ year < 1),
        ensureYearNotFuture, if_neg (by omega : ¬ year > today.year), bind, Except.bind,
        ensureHalfNotFuture,
        if_neg (by simp <;> intro hy <;> have := hcur hy <;> omega :
          ¬ (year == today.year && decide (h > halfForDate today)) = true),
        halfStartDate_ok h year hh1 hh2 (by omega) (by omega), hstart,
        halfEndDate_ok h year hh1 hh2 (by omega) (by omega), DateRange.make,
        if_neg (by simp [dateLt] <;> omega :
          ¬ dateLt ⟨year, h * 6, daysInMonth year (h * 6)⟩ ⟨year, (h - 1) * 6 + 1, 1⟩ = true)]

/-- Witness for `c8_in_year_resolvers` at concrete inputs. -/
theorem c8_witness :
    forQuarterInYear 2 2023 ⟨2024, 2, 5⟩ = .ok ⟨⟨2023, 4, 1⟩, ⟨2023, 6, 30⟩⟩ ∧
    forMonthInYear 11 2024 ⟨2024, 2, 5⟩ = .error (.valueError "month must not be in the future.") := by
  have h1 := ((c8_in_year_resolvers 2 11 1 2023 ⟨2024, 2, 5⟩ (by decide) (by decide) (by decide)
    (by decide) (by decide) (by decide) (by decide)).2.2.2 (by decide) (by decide)).1
    (by intro hy; exact absurd hy (by decide))
  have h2 := ((c8_in_year_resolvers 2 11 1 2024 ⟨2024, 2, 5⟩ (by decide) (by decide) (by decide)
    (by decide) (by decide) (by decide) (by decide)).2.2.1 rfl).2.1 (by decide)
  exact ⟨h1.trans rfl, h2⟩

example : parseIso (replaceZ "2024-01-02T03:04:05Z") = some (true, ⟨⟨2024, 1, 2⟩, 3, 4, 5⟩) := rfl

example : parseIso "2024-12-01T12:30:00" = some (false, ⟨⟨2024, 12, 1⟩, 12, 30, 0⟩) := rfl

example : parseIso "not-a-time" = none := rfl

example : parseIso "2024-13-01T12:30:00" = none := rfl

/-- On edge lists free of naive reviewer timestamps, `_has_review_in_range`
returns exactly the existence of a matching edge. -/
theorem hasReviewGo_of_no_naive (reviewer : String) (sDT eDT : PyDateTime)
    (edges : List ReviewEdge)
    (h : ∀ e ∈ edges, specEdgeNaive reviewer e = false) :
    hasReviewGo reviewer sDT eDT edges =
      .ok (edges.any (specEdgeMatches reviewer sDT eDT)) := by
  induction edges with
  | nil => rfl
  | cons e rest ih =>
    have he := h e (by simp)
    have hrest := ih (fun x hx => h x (by simp [hx]))
    cases hn : e.node with
    | none => simp [hasReviewGo, hn, hrest, specEdgeMatches]
    | some rn =>
      by_cases ha : authorLoginOf rn.author = some reviewer
      · cases hc : rn.createdAt with
        | none => simp [hasReviewGo, hn, ha, hc, hrest, specEdgeMatches]
        | some raw =>
          by_cases hraw : raw = ""
          · subst hraw
            have hp : parseIso (replaceZ "") = none := rfl
            simp [hasReviewGo, hn, ha, hc, hp, hrest, specEdgeMatches]
          · cases hp : parseIso (replaceZ raw) with
            | none => simp [hasReviewGo, hn, ha, hc, hraw, hp, hrest, specEdgeMatches]
            | some pr =>
              obtain ⟨aware, dt⟩ := pr
              cases aware with
              | false =>
                exfalso
                simp [specEdgeNaive, hn, ha, hc, hp] at he
              | true =>
                by_cases hin : (dtLe sDT dt && dtLe dt eDT) = true
                · simp [hasReviewGo, hn, ha, hc, hraw, hp, hin, specEdgeMatches]
                · simp [hasReviewGo, hn, ha, hc, hraw, hp, hin, hrest, specEdgeMatches]
      · simp [hasReviewGo, hn, ha, hrest, specEdgeMatches]

/-- On pages free of naive reviewer timestamps and without self-exclusion,
the per-page tally counts exactly the non-null records with a matching
review. -/
theorem countNodesReviewed_of_no_naive (reviewer : String) (sDT eDT : PyDateTime)
    (nodes : List (Option PrNode))
    (h : ∀ n, some n ∈ nodes → nodeNoNaive reviewer n) :
    countNodesReviewed reviewer false sDT eDT nodes =
      .ok ((nodes.filterMap id).countP (specNodeMatches reviewer sDT eDT)) := by
  induction nodes with
  | nil => rfl
  | cons x rest ih =>
    have hrest := ih (fun n hn => h n (by simp [hn]))
    cases x with
    | none => simpa [countNodesReviewed] using hrest
    | some n =>
      have hn := h n (by simp)
      have hrev := hasReviewGo_of_no_naive reviewer sDT eDT (n.reviews.getD ⟨[]⟩).edges hn
      have hfm : List.filterMap id (some n :: rest) = n :: List.filterMap id rest := rfl
      cases hb : (n.reviews.getD ⟨[]⟩).edges.any (specEdgeMatches reviewer sDT eDT) with
      | false =>
        simp only [countNodesReviewed, Bool.false_and, Bool.false_eq_true, if_false,
          hasReviewInRange, hrev, hrest, bind, Except.bind, hfm,
          List.countP_cons, specNodeMatches, hb]
        simp
      | true =>
        simp only [countNodesReviewed, Bool.false_and, Bool.false_eq_true, if_false,
          hasReviewInRange, hrev, hrest, bind, Except.bind, hfm,
          List.countP_cons, specNodeMatches, hb]
        simp only [if_pos rfl, Except.ok.injEq]
        push_cast
        omega

/-- The reviewed-count pagination loop over a well-formed page chain tallies
exactly the matching non-null records of all pages and consumes every page. -/
theorem countReviewedLoop_pages (reviewer : String) (sDT eDT : PyDateTime)
    (front : List (List (Option PrNode) × Option String)) (lastNodes : List (Option PrNode))
    (cursor : Option String)
    (h : ∀ n, some n ∈ allNodesOf front lastNodes → nodeNoNaive reviewer n) :
    countReviewedLoop reviewer false sDT eDT (pagesOf front lastNodes) cursor =
      .ok (((allNodesOf front lastNodes).filterMap id).countP
        (specNodeMatches reviewer sDT eDT), []) := by
  induction front generalizing cursor with
  | nil =>
    have hcount := countNodesReviewed_of_no_naive reviewer sDT eDT lastNodes
      (by simpa [allNodesOf] using h)
    simp [pagesOf, allNodesOf, countReviewedLoop, mkPage, extractSearch, extractPageInfo,
      hcount, bind, Except.bind]
  | cons p front ih =>
    have hsplit : allNodesOf (p :: front) lastNodes = p.1 ++ allNodesOf front lastNodes := by
      simp [allNodesOf]
    have hhead : ∀ n, some n ∈ p.1 → nodeNoNaive reviewer n := by
      intro n hn
      exact h n (by rw [hsplit]; exact List.mem_append_left _ hn)
    have hcount := countNodesReviewed_of_no_naive reviewer sDT eDT p.1 hhead
    have hrest := ih p.2 (by
      intro n hn
      exact h n (by rw [hsplit]; exact List.mem_append_right _ hn))
    simp only [pagesOf, mkPage] at hrest
    simp [pagesOf, List.map_cons, countReviewedLoop, mkPage, extractSearch, extractPageInfo,
      bind, Except.bind, keyLookup, hcount, hrest, hsplit, List.filterMap_append,
      List.countP_append]
    all_goals push_cast
    all_goals omega

/-- C3 (amended): over any well-formed page chain, the reviewed-by count
tallies a record exactly when one of its sub-reviews is authored by the
target reviewer with a timestamp parsing to a UTC instant inside
[start 00:00:00, end 23:59:59] inclusive; sub-reviews whose timestamps fail
to parse are skipped without error — provided no reviewer-authored
sub-review carries an offset-naive (offset-free) parsable timestamp, the
case in which the comparison instead raises an uncaught type error. -/
theorem c3_reviewed_count (reviewer : String) (s e : PyDate)
    (front : List (List (Option PrNode) × Option String)) (lastNodes : List (Option PrNode))
    (hrange : dateLt e s = false)
    (hnn : ∀ n, some n ∈ allNodesOf front lastNodes → nodeNoNaive reviewer n) :
    countReviewedWithinRange reviewer ⟨s, e⟩ false (pagesOf front lastNodes) =
      .ok (((allNodesOf front lastNodes).filterMap id).countP
        (specNodeMatches reviewer ⟨s, 0, 0, 0⟩ ⟨e, 23, 59, 59⟩), []) := by
  simp only [countReviewedWithinRange, normaliseDateRange, hrange, Bool.false_eq_true,
    if_false, bind, Except.bind,
    countReviewedLoop_pages reviewer ⟨s, 0, 0, 0⟩ ⟨e, 23, 59, 59⟩ front lastNodes none hnn]

/-- Counterexample to C3 as stated: a reviewer-authored sub-review whose
timestamp `2024-12-05T12:00:00` parses to an offset-naive instant makes the
count raise an uncaught comparison type error instead of skipping it or
counting the record, so the operation neither counts the record nor stays
silent. -/
theorem c3_counterexample :
    countReviewedWithinRange "octocat" ⟨⟨2024, 12, 1⟩, ⟨2024, 12, 31⟩⟩ false
      [mkPage [some ⟨none, none, none, none, none, none,
        some ⟨[⟨some ⟨some "2024-12-05T12:00:00", some ⟨some "octocat", none⟩⟩⟩]⟩⟩]
        (some false) (some none)] =
      .error (.typeError "cannot compare offset-naive and offset-aware datetimes") := rfl

/-- Witness for `c3_reviewed_count`: one matching record, one record whose
only sub-review timestamp is unparsable (skipped silently, not counted), and
one null placeholder. -/
theorem c3_witness :
    countReviewedWithinRange "octocat" ⟨⟨2024, 12, 1⟩, ⟨2024, 12, 31⟩⟩ false
      (pagesOf []
        [some ⟨none, none, none, none, none, none,
          some ⟨[⟨some ⟨some "2024-12-01T12:30:00Z", some ⟨some "octocat", none⟩⟩⟩]⟩⟩,
         some ⟨none, none, none, none, none, none,
          some ⟨[⟨some ⟨some "invalid", some ⟨some "octocat", none⟩⟩⟩]⟩⟩,
         none]) = .ok (1, []) := by
  have hinst := c3_reviewed_count "octocat" ⟨2024, 12, 1⟩ ⟨2024, 12, 31⟩ []
    [some ⟨none, none, none, none, none, none,
      some ⟨[⟨some ⟨some "2024-12-01T12:30:00Z", some ⟨some "octocat", none⟩⟩⟩]⟩⟩,
     some ⟨none, none, none, none, none, none,
      some ⟨[⟨some ⟨some "invalid", some ⟨some "octocat", none⟩⟩⟩]⟩⟩,
     none] (by decide) (by
      intro n hn
      simp [allNodesOf] at hn
      rcases hn with rfl | rfl <;>
        (intro ed hed; simp only [Option.getD_some] at hed;
         rw [List.mem_singleton] at hed; subst hed; rfl))
  exact hinst.trans rfl

/-- The per-page collection parses every non-null node and skips nulls. -/
theorem collectAuthored_ok (nodes : List (Option PrNode)) (g : PrNode → PullRequestSummary)
    (h : ∀ n, some n ∈ nodes → fromGraphql n = .ok (g n)) :
    collectAuthored nodes = .ok ((nodes.filterMap id).map g) := by
  induction nodes with
  | nil => rfl
  | cons x rest ih =>
    have hrest := ih (fun n hn => h n (by simp [hn]))
    cases x with
    | none => simpa [collectAuthored] using hrest
    | some n =>
      have hfm : List.filterMap id (some n :: rest) = n :: List.filterMap id rest := rfl
      simp [collectAuthored, h n (by simp), hrest, bind, Except.bind, hfm]

/-- The authored pagination loop over a well-formed page chain issues one
call per page, echoing each previous endCursor, and yields the parse of
every non-null node in page order. -/
theorem iterAuthoredLoop_pages (front : List (List (Option PrNode) × Option String))
    (lastNodes : List (Option PrNode)) (cursor : Option String)
    (g : PrNode → PullRequestSummary)
    (h : ∀ n, some n ∈ allNodesOf front lastNodes → fromGraphql n = .ok (g n)) :
    iterAuthoredLoop (pagesOf front lastNodes) cursor =
      .ok (cursor :: front.map (fun p => p.2),
        ((allNodesOf front lastNodes).filterMap id).map g) := by
  induction front generalizing cursor with
  | nil =>
    have hcollect := collectAuthored_ok lastNodes g (by simpa [allNodesOf] using h)
    simp [pagesOf, allNodesOf, iterAuthoredLoop, mkPage, extractSearch, extractPageInfo,
      hcollect, bind, Except.bind]
  | cons p front ih =>
    have hsplit : allNodesOf (p :: front) lastNodes = p.1 ++ allNodesOf front lastNodes := by
      simp [allNodesOf]
    have hcollect := collectAuthored_ok p.1 g (by
      intro n hn
      exact h n (by rw [hsplit]; exact List.mem_append_left _ hn))
    have hrest := ih p.2 (by
      intro n hn
      exact h n (by rw [hsplit]; exact List.mem_append_right _ hn))
    simp only [pagesOf, mkPage] at hrest
    simp [pagesOf, List.map_cons, iterAuthoredLoop, mkPage, extractSearch, extractPageInfo,
      bind, Except.bind, keyLookup, hcollect, hrest, hsplit, List.filterMap_append]

/-- C4: over a chain of N pages where only the last reports
`hasNextPage = false`, the authored enumeration issues exactly N calls, the
first with a null after cursor and each later call echoing the previous
endCursor, and yields one parsed summary per non-null node of every page
while skipping null placeholders. -/
theorem c4_pagination_completeness (front : List (List (Option PrNode) × Option String))
    (lastNodes : List (Option PrNode)) (g : PrNode → PullRequestSummary)
    (h : ∀ n, some n ∈ allNodesOf front lastNodes → fromGraphql n = .ok (g n)) :
    iterAuthoredLoop (pagesOf front lastNodes) none =
      .ok (none :: front.map (fun p => p.2),
        ((allNodesOf front lastNodes).filterMap id).map g)
    ∧ (none :: front.map (fun p => p.2)).length = (pagesOf front lastNodes).length := by
  refine ⟨iterAuthoredLoop_pages front lastNodes none g h, ?_⟩
  simp [pagesOf]

/-- Witness for `c4_pagination_completeness` on a concrete two-page run. -/
theorem c4_witness :
    iterAuthoredLoop
      (pagesOf
        [([some ⟨some 10, some "Add feature", some "u10", some "2024-01-02T03:04:05Z",
            some ⟨some "octocat", none⟩, some ⟨some "skyscanner/example"⟩, none⟩, none],
          some "CURSOR1")]
        [some ⟨some 10, some "Add feature", some "u10", some "2024-01-02T03:04:05Z",
          some ⟨some "octocat", none⟩, some ⟨some "skyscanner/example"⟩, none⟩]) none =
      .ok ([none, some "CURSOR1"],
        [⟨10, "Add feature", "u10", "skyscanner/example", "unknown", ⟨⟨2024, 1, 2⟩, 3, 4, 5⟩⟩,
         ⟨10, "Add feature", "u10", "skyscanner/example", "unknown", ⟨⟨2024, 1, 2⟩, 3, 4, 5⟩⟩]) := by
  have hinst := (c4_pagination_completeness
    [([some ⟨some 10, some "Add feature", some "u10", some "2024-01-02T03:04:05Z",
        some ⟨some "octocat", none⟩, some ⟨some "skyscanner/example"⟩, none⟩, none],
      some "CURSOR1")]
    [some ⟨some 10, some "Add feature", some "u10", some "2024-01-02T03:04:05Z",
      some ⟨some "octocat", none⟩, some ⟨some "skyscanner/example"⟩, none⟩]
    (fun _ => ⟨10, "Add feature", "u10", "skyscanner/example", "unknown", ⟨⟨2024, 1, 2⟩, 3, 4, 5⟩⟩)
    (by
      intro n hn
      simp [allNodesOf] at hn
      rcases hn with rfl | rfl <;> rfl)).1
  exact hinst.trans rfl

/-- C7 evaluated on concrete records: a complete node whose author object is
`{"login": "octocat"}` — the shape the LIST_QUERY selects and the shape the
repository's own model unit test feeds — parses into a summary whose author
is `"unknown"`, because `from_graphql` looks up the key `"username"`;
missing-field and bad-timestamp behaviour is also evaluated. -/
theorem c7_author_key_bug :
    fromGraphql ⟨some 10, some "Add feature", some "u10", some "2024-01-02T03:04:05Z",
      some ⟨some "octocat", none⟩, some ⟨some "skyscanner/example"⟩, none⟩ =
      .ok ⟨10, "Add feature", "u10", "skyscanner/example", "unknown", ⟨⟨2024, 1, 2⟩, 3, 4, 5⟩⟩
    ∧ "unknown" ≠ "octocat"
    ∧ fromGraphql ⟨some 12, some "Bad time", some "u12", some "not-a-time",
        some ⟨some "octocat", none⟩, some ⟨some "skyscanner/example"⟩, none⟩ =
      .error (.valueError "Could not parse creation time")
    ∧ fromGraphql ⟨some 13, some "No time", some "u13", none,
        none, some ⟨some "skyscanner/example"⟩, none⟩ =
      .error (.malformed "Pull request node missing createdAt")
    ∧ fromGraphql ⟨some 14, some "No repo", some "u14", some "2024-01-02T03:04:05Z",
        none, some ⟨none⟩, none⟩ =
      .error (.malformed "Pull request node missing repository.nameWithOwner")
    ∧ fromGraphql ⟨none, none, none, some "2024-01-02T03:04:05Z",
        none, some ⟨some "skyscanner/example"⟩, none⟩ =
      .error (.malformed "Pull request node missing required fields") :=
  ⟨rfl, by decide, rfl, rfl, rfl, rfl⟩

/-- C5 evaluated on the code: blank identities are discarded and an empty
remainder short-circuits to `(None, [])` without consuming any stubbed
response; deduplication keeps first-seen order; but any surviving identity
reaches the `MemberStatistics(login=member, ...)` call, which raises a
`TypeError` because the dataclass's only identity field is `username`. -/
theorem c5_member_statistics_behavior :
    (∀ (server : List Response) (resolve : Except PyErr DateRange) (excl : Bool),
      countMemberStatistics ["", ""] resolve excl server = .ok ((none, []), server))
    ∧ (dedupFirst ["alice", "bob", "alice", "", "bob"]).filter (fun s => s ≠ "") = ["alice", "bob"]
    ∧ countMemberStatistics ["alice"] (.ok ⟨⟨2024, 1, 1⟩, ⟨2024, 12, 31⟩⟩) false
        [⟨some ⟨some 2, none, none⟩⟩, mkPage [] (some false) (some none)] =
      .error (.typeError "unexpected keyword argument login") :=
  ⟨fun _ _ _ => rfl, by decide, rfl⟩

/-- C6 (amended): the authored-enumeration and reviewed-counting loops fail
with a malformed-result error naming the field for a missing `search` block
or a missing `pageInfo` block; the reviewed-enumeration loop instead raises
key-lookup errors for a missing `search`, `pageInfo` or `hasNextPage`; a
missing `endCursor` while `hasNextPage` is true raises a key-lookup error
naming the field in all three loops; the count field is validated (with a
malformed-result error) only by the single-shot authored count, not inside
any pagination loop; the `search`, `pageInfo`, `endCursor` and count fields
are never silently defaulted, but a missing `hasNextPage` is silently
treated as false — terminating pagination without error — in the
authored-enumeration and reviewed-counting loops. -/
theorem c6_missing_field_errors :
    (∀ (rest : List Response) (cursor : Option String),
      iterAuthoredLoop (⟨none⟩ :: rest) cursor =
        .error (.malformed "GitHub response missing search data"))
    ∧ (∀ (reviewer : String) (excl : Bool) (sDT eDT : PyDateTime) (rest : List Response)
        (cursor : Option String),
      countReviewedLoop reviewer excl sDT eDT (⟨none⟩ :: rest) cursor =
        .error (.malformed "GitHub response missing search data"))
    ∧ (∀ (reviewer : String) (excl : Bool) (sDT eDT : PyDateTime) (rest : List Response)
        (cursor : Option String),
      iterReviewedLoop reviewer excl sDT eDT (⟨none⟩ :: rest) cursor =
        .error (.keyError "search"))
    ∧ (∀ (ic : Option Int) (rest : List Response) (cursor : Option String),
      iterAuthoredLoop (⟨some ⟨ic, none, some []⟩⟩ :: rest) cursor =
        .error (.malformed "GitHub response missing pageInfo"))
    ∧ (∀ (reviewer : String) (excl : Bool) (sDT eDT : PyDateTime) (ic : Option Int)
        (rest : List Response) (cursor : Option String),
      countReviewedLoop reviewer excl sDT eDT (⟨some ⟨ic, none, some []⟩⟩ :: rest) cursor =
        .error (.malformed "GitHub response missing pageInfo"))
    ∧ (∀ (reviewer : String) (excl : Bool) (sDT eDT : PyDateTime) (ic : Option Int)
        (rest : List Response) (cursor : Option String),
      iterReviewedLoop reviewer excl sDT eDT (⟨some ⟨ic, none, some []⟩⟩ :: rest) cursor =
        .error (.keyError "pageInfo"))
    ∧ (∀ (ic : Option Int) (rest : List Response) (cursor : Option String),
      iterAuthoredLoop (⟨some ⟨ic, some ⟨some true, none⟩, some []⟩⟩ :: rest) cursor =
        .error (.keyError "endCursor"))
    ∧ (∀ (reviewer : String) (excl : Bool) (sDT eDT : PyDateTime) (ic : Option Int)
        (rest : List Response) (cursor : Option String),
      countReviewedLoop reviewer excl sDT eDT
        (⟨some ⟨ic, some ⟨some true, none⟩, some []⟩⟩ :: rest) cursor =
        .error (.keyError "endCursor"))
    ∧ (∀ (reviewer : String) (excl : Bool) (sDT eDT : PyDateTime) (ic : Option Int)
        (rest : List Response) (cursor : Option String),
      iterReviewedLoop reviewer excl sDT eDT
        (⟨some ⟨ic, some ⟨some true, none⟩, some []⟩⟩ :: rest) cursor =
        .error (.keyError "endCursor"))
    ∧ (∀ (reviewer : String) (excl : Bool) (sDT eDT : PyDateTime) (ic : Option Int)
        (ec : Option (Option String)) (rest : List Response) (cursor : Option String),
      iterReviewedLoop reviewer excl sDT eDT
        (⟨some ⟨ic, some ⟨none, ec⟩, some []⟩⟩ :: rest) cursor =
        .error (.keyError "hasNextPage"))
    ∧ (∀ (ic : Option Int) (ec : Option (Option String)) (rest : List Response)
        (cursor : Option String),
      iterAuthoredLoop (⟨some ⟨ic, some ⟨none, ec⟩, some []⟩⟩ :: rest) cursor =
        .ok ([cursor], []))
    ∧ (∀ (reviewer : String) (excl : Bool) (sDT eDT : PyDateTime) (ic : Option Int)
        (ec : Option (Option String)) (rest : List Response) (cursor : Option String),
      countReviewedLoop reviewer excl sDT eDT
        (⟨some ⟨ic, some ⟨none, ec⟩, some []⟩⟩ :: rest) cursor =
        .ok (0, rest))
    ∧ (∀ (pi : Option PageInfo) (nodes : Option (List (Option PrNode))) (rest : List Response),
      countAuthoredWithinRange (⟨some ⟨none, pi, nodes⟩⟩ :: rest) =
        .error (.malformed "GitHub response missing issueCount"))
    ∧ (∀ (cursor : Option String),
      iterAuthoredLoop [mkPage [] (some false) (some none)] cursor = .ok ([cursor], [])) :=
  ⟨fun _ _ => rfl, fun _ _ _ _ _ _ => rfl, fun _ _ _ _ _ _ => rfl,
   fun _ _ _ => rfl, fun _ _ _ _ _ _ _ => rfl, fun _ _ _ _ _ _ _ => rfl,
   fun _ _ _ => rfl, fun _ _ _ _ _ _ _ => rfl, fun _ _ _ _ _ _ _ => rfl,
   fun _ _ _ _ _ _ _ _ => rfl, fun _ _ _ _ => rfl, fun _ _ _ _ _ _ _ _ => rfl,
   fun _ _ _ => rfl, fun _ => rfl⟩

/-- Counterexample to C6 as stated: in the reviewed-enumeration loop a
response lacking the `search` block raises a key-lookup error, which is not
a malformed-result error. -/
theorem c6_counterexample :
    iterReviewedLoop "octocat" false ⟨⟨2024, 1, 1⟩, 0, 0, 0⟩ ⟨⟨2024, 1, 2⟩, 23, 59, 59⟩
      [⟨none⟩] none = .error (.keyError "search")
    ∧ isMalformedErr (iterReviewedLoop "octocat" false ⟨⟨2024, 1, 1⟩, 0, 0, 0⟩
        ⟨⟨2024, 1, 2⟩, 23, 59, 59⟩ [⟨none⟩] none) = false :=
  ⟨rfl, rfl⟩
